import Mathlib

/-!
Shallow embedding of src/Game.cpp (aggp repository): the light data model,
the light generation algorithm of Game::GenerateLights, the resize guard of
Game::OnResize, the light-marker pass of Game::DrawPointLights, the overlay
pass of Game::DrawUI, and the frame orchestration of Game::Draw, followed by
theorems settling the specification claims.

Machine floats of the source are modelled as exact rationals; the random
source rand() is modelled as an arbitrary function supplying one natural
number, bounded by RAND_MAX, per draw.
-/

namespace Aggp

/-- Three-component vector of rationals standing in for XMFLOAT3. -/
structure Vec3 where
  x : ℚ
  y : ℚ
  z : ℚ
  deriving DecidableEq

/-- Light type tags: LIGHT_TYPE_DIRECTIONAL, LIGHT_TYPE_POINT, LIGHT_TYPE_SPOT. -/
inductive LightType where
  | Directional
  | Point
  | Spot
  deriving DecidableEq

/-- The Light record used by Game.cpp: a tagged variant with a type tag,
direction, position, color, intensity and range.  A value-initialized record
(Light l = \x7b\x7d in the source) has all scalar fields zero and the
Directional tag (tag value 0). -/
structure Light where
  type : LightType
  direction : Vec3
  position : Vec3
  color : Vec3
  intensity : ℚ
  range : ℚ
  deriving DecidableEq

/-- MSVC RAND_MAX, the largest value rand() can return. -/
def RAND_MAX : ℕ := 32767

/-- The RandomRange macro of Game.cpp line 25:
(float)rand() / RAND_MAX * (max - min) + min, with the rand() result r
passed explicitly. -/
def RandomRange (r : ℕ) (min max : ℚ) : ℚ :=
  (r : ℚ) / (RAND_MAX : ℚ) * (max - min) + min

/-- First fixed directional light of Game::GenerateLights (dir1). -/
def dir1 : Light :=
  { type := LightType.Directional
    direction := ⟨1, -1, 1⟩
    position := ⟨0, 0, 0⟩
    color := ⟨0.8, 0.8, 0.8⟩
    intensity := 1
    range := 0 }

/-- Second fixed directional light of Game::GenerateLights (dir2). -/
def dir2 : Light :=
  { type := LightType.Directional
    direction := ⟨-1, -0.25, 0⟩
    position := ⟨0, 0, 0⟩
    color := ⟨0.2, 0.2, 0.2⟩
    intensity := 1
    range := 0 }

/-- Third fixed directional light of Game::GenerateLights (dir3). -/
def dir3 : Light :=
  { type := LightType.Directional
    direction := ⟨0, -1, 1⟩
    position := ⟨0, 0, 0⟩
    color := ⟨0.2, 0.2, 0.2⟩
    intensity := 1
    range := 0 }

/-- One iteration body of the point-light loop of Game::GenerateLights:
a value-initialized Light given the Point tag, a position drawn from the
box x,z in [-10,10], y in [-5,5], a color with channels drawn from [0,1],
a range drawn from [5,10] and an intensity drawn from [0.1,3.0].  The
random source rng supplies the j-th rand() result of the i-th iteration
as rng i j. -/
def mkPointLight (rng : ℕ → ℕ → ℕ) (i : ℕ) : Light :=
  { type := LightType.Point
    direction := ⟨0, 0, 0⟩
    position := ⟨RandomRange (rng i 0) (-10) 10,
                 RandomRange (rng i 1) (-5) 5,
                 RandomRange (rng i 2) (-10) 10⟩
    color := ⟨RandomRange (rng i 3) 0 1,
              RandomRange (rng i 4) 0 1,
              RandomRange (rng i 5) 0 1⟩
    intensity := RandomRange (rng i 7) 0.1 3.0
    range := RandomRange (rng i 6) 5 10 }

/-- The while loop of Game::GenerateLights: while the list is shorter than
lightCount, append one freshly generated point light.  Each iteration grows
the list by exactly one, so running the guarded body with fuel at least
lightCount - length many times is the exact loop; GenerateLights below
passes ample fuel. -/
def lightsLoop (rng : ℕ → ℕ → ℕ) (lightCount : ℕ) : ℕ → List Light → List Light
  | 0, lights => lights
  | fuel + 1, lights =>
    if lights.length < lightCount then
      lightsLoop rng lightCount fuel (lights ++ [mkPointLight rng lights.length])
    else
      lights

/-- Game::GenerateLights: clear the collection (the prior contents are
discarded), push the three fixed directional lights, then run the point
light loop up to the declared capacity.  The capacity lightCount is the
member field the source reads; prior is the collection contents before the
call. -/
def GenerateLights (prior : List Light) (lightCount : ℕ) (rng : ℕ → ℕ → ℕ) : List Light :=
  let lights : List Light := []
  let lights := lights ++ [dir1, dir2, dir3]
  lightsLoop rng lightCount lightCount lights

/-- A concrete random source for witnesses: every rand() call returns 0. -/
def zeroRng : ℕ → ℕ → ℕ := fun _ _ => 0

/-- The narrow Camera contract consumed by Game::OnResize: an aspect-ratio
update operation.  Only the aspect field is relevant to the claims. -/
structure Camera where
  aspect : ℚ
  deriving DecidableEq

/-- Camera::UpdateProjectionMatrix, restricted to the state this embedding
tracks: store the new aspect ratio. -/
def UpdateProjectionMatrix (c : Camera) (a : ℚ) : Camera :=
  { c with aspect := a }

/-- Game::OnResize: after the base-class resize, update the camera
projection only if a camera exists (the if (camera) guard of the source);
the new aspect ratio is width / (float)height. -/
def OnResize (camera : Option Camera) (width height : ℕ) : Option Camera :=
  match camera with
  | none => none
  | some c => some (UpdateProjectionMatrix c ((width : ℚ) / (height : ℚ)))

/-- Four-by-four rational matrix standing in for XMMATRIX, row-vector
convention as in DirectXMath. -/
abbrev Mat4 := Matrix (Fin 4) (Fin 4) ℚ

/-- XMMatrixIdentity. -/
def XMMatrixIdentity : Mat4 := 1

/-- XMMatrixScaling: scale factors on the diagonal. -/
def XMMatrixScaling (sx sy sz : ℚ) : Mat4 :=
  !![sx, 0, 0, 0; 0, sy, 0, 0; 0, 0, sz, 0; 0, 0, 0, 1]

/-- XMMatrixTranslation: identity with the offset in the fourth row
(row-vector convention). -/
def XMMatrixTranslation (tx ty tz : ℚ) : Mat4 :=
  !![1, 0, 0, 0; 0, 1, 0, 0; 0, 0, 1, 0; tx, ty, tz, 1]

/-- One sphere draw issued by Game::DrawPointLights: the world matrix
pushed to the unlit vertex shader and the solid color pushed to the unlit
pixel shader.  The worldInverseTranspose the source also pushes is derived
from world and carries no further information for the claims. -/
structure PointLightDraw where
  world : Mat4
  color : Vec3

/-- Game::DrawPointLights: for each index i below lightCount, read
lights[i]; skip it unless its type tag is Point; otherwise compute
scale = range / 20, build world = scaleMat * rotMat * transMat with an
identity rotation, compute the color scaled componentwise by intensity,
and issue one sphere draw.  An index beyond the collection bounds yields
no draw in this model (the source would read out of bounds there; claim
C10 shows the reachable states keep every index in bounds). -/
def DrawPointLights (lights : List Light) (lightCount : ℕ) : List PointLightDraw :=
  (List.range lightCount).filterMap fun i =>
    match lights.get? i with
    | none => none
    | some light =>
      if light.type = LightType.Point then
        let scale := light.range / 20
        some { world := XMMatrixScaling scale scale scale * XMMatrixIdentity *
                 XMMatrixTranslation light.position.x light.position.y light.position.z
               color := ⟨light.color.x * light.intensity,
                         light.color.y * light.intensity,
                         light.color.z * light.intensity⟩ }
      else none

/-- Modelled from the spec: a world matrix built from a uniform scale and a
position with identity rotation, written directly as the spec describes it,
to be compared with the scale-rotation-translation product the source
computes. -/
def scaleTranslationMatrix (s : ℚ) (p : Vec3) : Mat4 :=
  !![s, 0, 0, 0; 0, s, 0, 0; 0, 0, s, 0; p.x, p.y, p.z, 1]

/-- The frame-scope constants Game::Draw pushes into an entity material
pixel-shader stage: the light array bounded by the capacity (the SetData
call copies sizeof(Light) * lightCount bytes from the front of the
collection), the light count, the camera world position, and the sky
convolved-specular mip-level count. -/
structure FrameConstants where
  lightData : List Light
  lightCount : ℕ
  cameraPosition : Vec3
  specIBLTotalMipLevels : ℕ
  deriving DecidableEq

/-- Observable pipeline operations of one Game::Draw frame, in issue
order.  Blend and depth-stencil state handles are modelled as Option
naturals with none standing for the null (default) state the source
passes to OMSetBlendState and OMSetDepthStencilState. -/
inductive FrameOp where
  | clearRenderTarget (r g b a : ℚ)
  | clearDepthStencil (depth : ℚ) (stencil : ℕ)
  | setPerFrameData (pixelShader : ℕ) (data : FrameConstants)
  | entityDraw (i : ℕ)
  | lightMarkerDraw (d : PointLightDraw)
  | skyDraw
  | spriteTextDraw (line : ℕ)
  | setBlendState (state : Option ℕ)
  | setDepthStencilState (state : Option ℕ)
  | debugUIDraw
  | present
  | bindRenderTargets

/-- Game::DrawUI: the sprite batch draws nine text strings; ending the
batch leaves the blend and depth-stencil states at whatever values the
sprite batch used (sbBlend, sbDepth, arbitrary here); the source then
explicitly resets both to the null default states. -/
def DrawUIOps (sbBlend sbDepth : ℕ) : List FrameOp :=
  (List.range 9).map FrameOp.spriteTextDraw
    ++ [FrameOp.setBlendState (some sbBlend), FrameOp.setDepthStencilState (some sbDepth)]
    ++ [FrameOp.setBlendState none, FrameOp.setDepthStencilState none]

/-- Game::Draw as the list of pipeline operations it issues: clear the
render target to opaque black and the depth-stencil target to depth 1,
then for each entity (entities lists each entity material pixel-shader
handle, in collection order) push the per-frame constants into that
entity pixel shader and draw the entity, then the light-marker draws of
DrawPointLights, then the sky draw, then the overlay pass of DrawUI, then
the debug-UI draw, the present, and the render-target rebind. -/
def DrawOps (entities : List ℕ) (lights : List Light) (lightCount : ℕ)
    (cameraPosition : Vec3) (specIBLTotalMipLevels : ℕ) (sbBlend sbDepth : ℕ) :
    List FrameOp :=
  [FrameOp.clearRenderTarget 0 0 0 1, FrameOp.clearDepthStencil 1 0]
    ++ entities.enum.flatMap (fun e =>
        [FrameOp.setPerFrameData e.2
          { lightData := lights.take lightCount
            lightCount := lightCount
            cameraPosition := cameraPosition
            specIBLTotalMipLevels := specIBLTotalMipLevels },
         FrameOp.entityDraw e.1])
    ++ (DrawPointLights lights lightCount).map FrameOp.lightMarkerDraw
    ++ [FrameOp.skyDraw]
    ++ DrawUIOps sbBlend sbDepth
    ++ [FrameOp.debugUIDraw, FrameOp.present, FrameOp.bindRenderTargets]

/-- Pass index of a frame operation within the fixed per-frame sequence:
clears, entity pass, light-marker pass, sky pass, overlay pass, debug-UI
pass, present, render-target rebind. -/
def opPhase : FrameOp → ℕ
  | FrameOp.clearRenderTarget _ _ _ _ => 0
  | FrameOp.clearDepthStencil _ _ => 0
  | FrameOp.setPerFrameData _ _ => 1
  | FrameOp.entityDraw _ => 1
  | FrameOp.lightMarkerDraw _ => 2
  | FrameOp.skyDraw => 3
  | FrameOp.spriteTextDraw _ => 4
  | FrameOp.setBlendState _ => 4
  | FrameOp.setDepthStencilState _ => 4
  | FrameOp.debugUIDraw => 5
  | FrameOp.present => 6
  | FrameOp.bindRenderTargets => 7

/-- Whether an operation is one of the two clears. -/
def isClearOp : FrameOp → Bool
  | FrameOp.clearRenderTarget _ _ _ _ => true
  | FrameOp.clearDepthStencil _ _ => true
  | _ => false

/-- Whether an operation issues geometry or UI drawing. -/
def isDrawOp : FrameOp → Bool
  | FrameOp.entityDraw _ => true
  | FrameOp.lightMarkerDraw _ => true
  | FrameOp.skyDraw => true
  | FrameOp.spriteTextDraw _ => true
  | FrameOp.debugUIDraw => true
  | _ => false

/-- The blend and depth-stencil output-merger states; none is the null
default state. -/
structure RenderStates where
  blend : Option ℕ
  depthStencil : Option ℕ
  deriving DecidableEq

/-- Effect of one frame operation on the output-merger states. -/
def applyOp (s : RenderStates) : FrameOp → RenderStates
  | FrameOp.setBlendState h => { s with blend := h }
  | FrameOp.setDepthStencilState h => { s with depthStencil := h }
  | _ => s

/-- Effect of a sequence of frame operations on the output-merger states. -/
def applyOps (s : RenderStates) (ops : List FrameOp) : RenderStates :=
  ops.foldl applyOp s

/-- Projection selecting the per-frame constant pushes from a trace. -/
def perFrameDataOf : FrameOp → Option (ℕ × FrameConstants)
  | FrameOp.setPerFrameData ps d => some (ps, d)
  | _ => none

/-- Closed form of the point-light while loop: with fuel at least the
number of missing lights it appends exactly lightCount - length point
lights, indexed consecutively from the current length. -/
theorem lightsLoop_eq (rng : ℕ → ℕ → ℕ) (lightCount : ℕ) :
    ∀ (fuel : ℕ) (acc : List Light), lightCount - acc.length ≤ fuel →
      lightsLoop rng lightCount fuel acc =
        acc ++ (List.range' acc.length (lightCount - acc.length)).map (mkPointLight rng)
  | 0, acc, h => by
      have h0 : lightCount - acc.length = 0 := Nat.le_zero.mp h
      simp [lightsLoop, h0]
  | fuel + 1, acc, h => by
      by_cases hlt : acc.length < lightCount
      · have hfuel : lightCount - (acc ++ [mkPointLight rng acc.length]).length ≤ fuel := by
          simp only [List.length_append, List.length_singleton]
          omega
        have ih := lightsLoop_eq rng lightCount fuel (acc ++ [mkPointLight rng acc.length]) hfuel
        rw [lightsLoop, if_pos hlt, ih]
        simp only [List.length_append, List.length_singleton]
        have hm : lightCount - acc.length = (lightCount - (acc.length + 1)) + 1 := by omega
        rw [hm, List.range'_succ]
        simp [List.append_assoc]
      · have h0 : lightCount - acc.length = 0 := by omega
        simp [lightsLoop, if_neg hlt, h0]

/-- GenerateLights in closed form: the three fixed directional lights
followed by lightCount - 3 point lights. -/
theorem GenerateLights_eq (prior : List Light) (lightCount : ℕ) (rng : ℕ → ℕ → ℕ) :
    GenerateLights prior lightCount rng =
      [dir1, dir2, dir3] ++ (List.range' 3 (lightCount - 3)).map (mkPointLight rng) := by
  have h := lightsLoop_eq rng lightCount lightCount [dir1, dir2, dir3]
    (by simp only [List.length_cons, List.length_nil]; omega)
  simpa [GenerateLights] using h

/-- Size of the generated collection: the maximum of 3 and the capacity. -/
theorem GenerateLights_length (prior : List Light) (lightCount : ℕ) (rng : ℕ → ℕ → ℕ) :
    (GenerateLights prior lightCount rng).length = max 3 lightCount := by
  rw [GenerateLights_eq]
  simp only [List.length_append, List.length_map, List.length_range', List.length_cons,
    List.length_nil]
  omega

/-- C1: for every capacity C at least 3, GenerateLights leaves the light
collection with exactly C lights, the lights at indices 0, 1, 2 tagged
Directional and the lights at indices 3 to C-1 tagged Point. -/
theorem generateLights_capacity_shape (prior : List Light) (C : ℕ) (rng : ℕ → ℕ → ℕ)
    (hC : 3 ≤ C) :
    (GenerateLights prior C rng).length = C ∧
    (∀ i, i < 3 → ((GenerateLights prior C rng).get? i).map Light.type =
      some LightType.Directional) ∧
    (∀ i, 3 ≤ i → i < C → ((GenerateLights prior C rng).get? i).map Light.type =
      some LightType.Point) := by
  refine ⟨?_, ?_, ?_⟩
  · rw [GenerateLights_length]; omega
  · intro i hi
    rw [GenerateLights_eq, List.get?_append (by simpa using hi)]
    interval_cases i <;> rfl
  · intro i h3 hC'
    rw [GenerateLights_eq, List.get?_append_right (by simpa using h3)]
    simp only [List.length_cons, List.length_nil]
    rw [List.get?_map]
    have hlt : i - 3 < C - 3 := by omega
    rw [List.get?_range' _ _ hlt]
    rfl

/-- Witness for C1: capacity 32 with the all-zero random source. -/
theorem generateLights_capacity_shape_witness :
    (3 ≤ 32) ∧
    (GenerateLights [] 32 zeroRng).length = 32 ∧
    ((GenerateLights [] 32 zeroRng).get? 0).map Light.type = some LightType.Directional ∧
    ((GenerateLights [] 32 zeroRng).get? 31).map Light.type = some LightType.Point :=
  ⟨by decide,
   (generateLights_capacity_shape [] 32 zeroRng (by decide)).1,
   (generateLights_capacity_shape [] 32 zeroRng (by decide)).2.1 0 (by decide),
   (generateLights_capacity_shape [] 32 zeroRng (by decide)).2.2 31 (by decide) (by decide)⟩

/-- C3: GenerateLights is a full replacement: the result ignores the prior
collection contents, the first three lights are the fixed directional
constants after every call (so two consecutive calls agree on the
directional set), and the shape is always 3 directional plus C - 3 point
lights. -/
theorem generateLights_replacement (prior1 prior2 : List Light) (C : ℕ)
    (rng1 rng2 : ℕ → ℕ → ℕ) (hC : 3 ≤ C) :
    GenerateLights prior1 C rng1 = GenerateLights prior2 C rng1 ∧
    (GenerateLights prior1 C rng1).take 3 = [dir1, dir2, dir3] ∧
    (GenerateLights prior1 C rng1).take 3 = (GenerateLights prior2 C rng2).take 3 ∧
    (GenerateLights prior1 C rng1).countP
      (fun l => decide (l.type = LightType.Directional)) = 3 ∧
    (GenerateLights prior1 C rng1).countP
      (fun l => decide (l.type = LightType.Point)) = C - 3 := by
  have htake : ∀ (p : List Light) (rng : ℕ → ℕ → ℕ),
      (GenerateLights p C rng).take 3 = [dir1, dir2, dir3] := by
    intro p rng
    rw [GenerateLights_eq]
    rw [List.take_append_of_le_length (by simp)]
    rfl
  refine ⟨rfl, htake prior1 rng1, ?_, ?_, ?_⟩
  · rw [htake prior1 rng1, htake prior2 rng2]
  · rw [GenerateLights_eq, List.countP_append]
    have h1 : List.countP (fun l => decide (l.type = LightType.Directional))
        [dir1, dir2, dir3] = 3 := by decide
    have h2 : List.countP (fun l => decide (l.type = LightType.Directional))
        ((List.range' 3 (C - 3)).map (mkPointLight rng1)) = 0 := by
      rw [List.countP_eq_zero]
      intro a ha
      rcases List.mem_map.mp ha with ⟨k, _, rfl⟩
      simp [mkPointLight]
    omega
  · rw [GenerateLights_eq, List.countP_append]
    have h1 : List.countP (fun l => decide (l.type = LightType.Point))
        [dir1, dir2, dir3] = 0 := by decide
    have h2 : List.countP (fun l => decide (l.type = LightType.Point))
        ((List.range' 3 (C - 3)).map (mkPointLight rng1)) = C - 3 := by
      rw [List.countP_eq_length_filter, List.filter_eq_self.mpr, List.length_map,
        List.length_range']
      intro a ha
      rcases List.mem_map.mp ha with ⟨k, _, rfl⟩
      simp [mkPointLight]
    omega

/-- Witness for C3: capacity 4, two different prior states and random
sources. -/
theorem generateLights_replacement_witness :
    (3 ≤ 4) ∧
    GenerateLights [dir1] 4 zeroRng = GenerateLights [] 4 zeroRng ∧
    (GenerateLights [dir1] 4 zeroRng).take 3 = [dir1, dir2, dir3] ∧
    (GenerateLights [dir1] 4 zeroRng).countP
      (fun l => decide (l.type = LightType.Point)) = 4 - 3 :=
  ⟨by decide,
   (generateLights_replacement [dir1] [] 4 zeroRng zeroRng (by decide)).1,
   (generateLights_replacement [dir1] [] 4 zeroRng zeroRng (by decide)).2.1,
   (generateLights_replacement [dir1] [] 4 zeroRng zeroRng (by decide)).2.2.2.2⟩

/-- C6 counterexample: at capacity 0 the collection ends with 3 lights,
not 0, so the size does not equal the declared capacity for every
capacity value. -/
theorem generateLights_capacity_counterexample :
    (GenerateLights [] 0 zeroRng).length ≠ 0 := by decide

/-- C6 amended: after GenerateLights runs, the collection size is the
maximum of 3 and the declared capacity (equal to the capacity exactly when
the capacity is at least 3). -/
theorem generateLights_length_max (prior : List Light) (lightCount : ℕ) (rng : ℕ → ℕ → ℕ) :
    (GenerateLights prior lightCount rng).length = max 3 lightCount :=
  GenerateLights_length prior lightCount rng

/-- C10: after GenerateLights the collection holds max 3 lightCount
records, hence at least lightCount; reading lightCount consecutive
records from index 0 (the SetData call of Game::Draw) stays in bounds,
and every index access below lightCount (the loop of
Game::DrawPointLights) is in bounds. -/
theorem lights_access_in_bounds (prior : List Light) (C : ℕ) (rng : ℕ → ℕ → ℕ) :
    (GenerateLights prior C rng).length = max 3 C ∧
    C ≤ (GenerateLights prior C rng).length ∧
    ((GenerateLights prior C rng).take C).length = C ∧
    ((List.range C).all fun i => ((GenerateLights prior C rng).get? i).isSome) = true := by
  have hlen := GenerateLights_length prior C rng
  refine ⟨hlen, by omega, ?_, ?_⟩
  · rw [List.length_take]; omega
  · rw [List.all_eq_true]
    intro i hi
    rw [List.mem_range] at hi
    have hib : i < (GenerateLights prior C rng).length := by omega
    rw [List.get?_eq_getElem?, List.getElem?_eq_getElem hib]
    rfl

/-- Bounds of the RandomRange macro: for any rand() result up to RAND_MAX
and any ordered pair of bounds the result stays in the closed interval. -/
theorem RandomRange_bounds (r : ℕ) (min max : ℚ) (hr : r ≤ RAND_MAX) (hle : min ≤ max) :
    min ≤ RandomRange r min max ∧ RandomRange r min max ≤ max := by
  have hRpos : (0 : ℚ) < ((RAND_MAX : ℕ) : ℚ) := by norm_num [RAND_MAX]
  have h0 : (0 : ℚ) ≤ (r : ℚ) / ((RAND_MAX : ℕ) : ℚ) := by positivity
  have h1 : (r : ℚ) / ((RAND_MAX : ℕ) : ℚ) ≤ 1 := by
    rw [div_le_one hRpos]
    exact_mod_cast hr
  unfold RandomRange
  constructor
  · nlinarith [mul_nonneg h0 (sub_nonneg.mpr hle)]
  · nlinarith [mul_nonneg (sub_nonneg.mpr h1) (sub_nonneg.mpr hle)]

/-- C2: every Point light appended by GenerateLights satisfies the field
bounds, for every value of the random source bounded by RAND_MAX:
position.x and position.z in [-10,10], position.y in [-5,5], color
channels in [0,1], range in [5,10], intensity in [0.1,3.0]. -/
theorem generateLights_point_bounds (prior : List Light) (C : ℕ) (rng : ℕ → ℕ → ℕ)
    (hrng : ∀ i j, rng i j ≤ RAND_MAX) :
    ∀ L ∈ GenerateLights prior C rng, L.type = LightType.Point →
      (-10 ≤ L.position.x ∧ L.position.x ≤ 10) ∧
      (-5 ≤ L.position.y ∧ L.position.y ≤ 5) ∧
      (-10 ≤ L.position.z ∧ L.position.z ≤ 10) ∧
      (0 ≤ L.color.x ∧ L.color.x ≤ 1) ∧
      (0 ≤ L.color.y ∧ L.color.y ≤ 1) ∧
      (0 ≤ L.color.z ∧ L.color.z ≤ 1) ∧
      (5 ≤ L.range ∧ L.range ≤ 10) ∧
      (0.1 ≤ L.intensity ∧ L.intensity ≤ 3.0) := by
  intro L hL htype
  rw [GenerateLights_eq] at hL
  rcases List.mem_append.mp hL with hmem | hmem
  · exfalso
    simp only [List.mem_cons, List.mem_singleton, List.not_mem_nil, or_false] at hmem
    rcases hmem with rfl | rfl | rfl <;> simp [dir1, dir2, dir3] at htype
  · rcases List.mem_map.mp hmem with ⟨k, _, rfl⟩
    exact ⟨RandomRange_bounds (rng k 0) (-10) 10 (hrng k 0) (by norm_num),
           RandomRange_bounds (rng k 1) (-5) 5 (hrng k 1) (by norm_num),
           RandomRange_bounds (rng k 2) (-10) 10 (hrng k 2) (by norm_num),
           RandomRange_bounds (rng k 3) 0 1 (hrng k 3) (by norm_num),
           RandomRange_bounds (rng k 4) 0 1 (hrng k 4) (by norm_num),
           RandomRange_bounds (rng k 5) 0 1 (hrng k 5) (by norm_num),
           RandomRange_bounds (rng k 6) 5 10 (hrng k 6) (by norm_num),
           RandomRange_bounds (rng k 7) 0.1 3.0 (hrng k 7) (by norm_num)⟩

/-- Witness for C2: the single point light generated at capacity 4 with
the all-zero random source. -/
theorem generateLights_point_bounds_witness :
    (-10 ≤ ((GenerateLights [] 4 zeroRng).get ⟨3, by decide⟩).position.x ∧
      ((GenerateLights [] 4 zeroRng).get ⟨3, by decide⟩).position.x ≤ 10) ∧
    (-5 ≤ ((GenerateLights [] 4 zeroRng).get ⟨3, by decide⟩).position.y ∧
      ((GenerateLights [] 4 zeroRng).get ⟨3, by decide⟩).position.y ≤ 5) ∧
    (-10 ≤ ((GenerateLights [] 4 zeroRng).get ⟨3, by decide⟩).position.z ∧
      ((GenerateLights [] 4 zeroRng).get ⟨3, by decide⟩).position.z ≤ 10) ∧
    (0 ≤ ((GenerateLights [] 4 zeroRng).get ⟨3, by decide⟩).color.x ∧
      ((GenerateLights [] 4 zeroRng).get ⟨3, by decide⟩).color.x ≤ 1) ∧
    (0 ≤ ((GenerateLights [] 4 zeroRng).get ⟨3, by decide⟩).color.y ∧
      ((GenerateLights [] 4 zeroRng).get ⟨3, by decide⟩).color.y ≤ 1) ∧
    (0 ≤ ((GenerateLights [] 4 zeroRng).get ⟨3, by decide⟩).color.z ∧
      ((GenerateLights [] 4 zeroRng).get ⟨3, by decide⟩).color.z ≤ 1) ∧
    (5 ≤ ((GenerateLights [] 4 zeroRng).get ⟨3, by decide⟩).range ∧
      ((GenerateLights [] 4 zeroRng).get ⟨3, by decide⟩).range ≤ 10) ∧
    (0.1 ≤ ((GenerateLights [] 4 zeroRng).get ⟨3, by decide⟩).intensity ∧
      ((GenerateLights [] 4 zeroRng).get ⟨3, by decide⟩).intensity ≤ 3.0) :=
  generateLights_point_bounds [] 4 zeroRng (fun _ _ => Nat.zero_le _)
    ((GenerateLights [] 4 zeroRng).get ⟨3, by decide⟩) (List.get_mem _ _ (by decide)) rfl

/-- C8: a resize before any Camera exists skips the projection update (the
camera guard makes it a no-op); once a Camera exists the same resize
updates the aspect ratio to width divided by height, 16/9 for a 1280x720
surface. -/
theorem onResize_camera_guard (width height : ℕ) (c : Camera) :
    OnResize none width height = none ∧
    OnResize (some c) width height = some ⟨(width : ℚ) / (height : ℚ)⟩ ∧
    OnResize (some c) 1280 720 = some ⟨16 / 9⟩ := by
  refine ⟨rfl, rfl, ?_⟩
  simp only [OnResize, UpdateProjectionMatrix]
  norm_num

/-- C9: after the overlay pass finishes its sprite-batch text drawing, the
blend and depth-stencil states are back at the null defaults, whatever
states the sprite batch installed and whatever the states were before. -/
theorem drawUI_restores_render_states (sbBlend sbDepth : ℕ) (s : RenderStates) :
    (applyOps s (DrawUIOps sbBlend sbDepth)).blend = none ∧
    (applyOps s (DrawUIOps sbBlend sbDepth)).depthStencil = none :=
  ⟨rfl, rfl⟩

/-- The scale times identity-rotation times translation product the source
computes equals the matrix the spec describes: uniform scale on the
diagonal and the position in the translation row. -/
theorem world_product_eq (s : ℚ) (p : Vec3) :
    XMMatrixScaling s s s * XMMatrixIdentity *
      XMMatrixTranslation p.x p.y p.z = scaleTranslationMatrix s p := by
  rw [XMMatrixIdentity, mul_one]
  ext i j
  fin_cases i <;> fin_cases j <;>
    simp [XMMatrixScaling, XMMatrixTranslation, scaleTranslationMatrix,
      Matrix.mul_apply, Fin.sum_univ_four]

/-- Unfolding step of the light-marker loop: the head entry contributes
one draw exactly when its type tag is Point. -/
theorem DrawPointLights_cons (L : Light) (rest : List Light) (n : ℕ) :
    DrawPointLights (L :: rest) (n + 1) =
      (if L.type = LightType.Point then
        [{ world := XMMatrixScaling (L.range / 20) (L.range / 20) (L.range / 20) *
             XMMatrixIdentity *
             XMMatrixTranslation L.position.x L.position.y L.position.z
           color := ⟨L.color.x * L.intensity, L.color.y * L.intensity,
                     L.color.z * L.intensity⟩ }]
      else []) ++ DrawPointLights rest n := by
  have htail :
      List.filterMap
        ((fun i =>
          match (L :: rest).get? i with
          | none => none
          | some light =>
            if light.type = LightType.Point then
              some ({ world := XMMatrixScaling (light.range / 20) (light.range / 20)
                        (light.range / 20) * XMMatrixIdentity *
                        XMMatrixTranslation light.position.x light.position.y
                        light.position.z
                      color := ⟨light.color.x * light.intensity,
                                light.color.y * light.intensity,
                                light.color.z * light.intensity⟩ } : PointLightDraw)
            else none) ∘ Nat.succ) (List.range n) = DrawPointLights rest n := by
    unfold DrawPointLights
    congr 1
    try funext i
    try simp only [Function.comp_apply, List.get?_eq_getElem?, List.getElem?_cons_succ]
  by_cases hP : L.type = LightType.Point <;>
    simp [DrawPointLights, List.range_succ_eq_map, List.filterMap_cons,
      List.filterMap_map, hP] <;>
    simpa [DrawPointLights] using htail

/-- C4: the light-marker pass issues one sphere draw for exactly the Point
lights among the first lightCount entries, in collection order, skipping
Directional and Spot lights; each draw carries the world matrix built from
uniform scale range / 20 and the light position with identity rotation,
and the solid color equal to the light color scaled componentwise by its
intensity. -/
theorem drawPointLights_spec (lights : List Light) (lightCount : ℕ) :
    DrawPointLights lights lightCount =
      ((lights.take lightCount).filter (fun l => decide (l.type = LightType.Point))).map
        (fun light =>
          { world := scaleTranslationMatrix (light.range / 20) light.position
            color := ⟨light.color.x * light.intensity,
                      light.color.y * light.intensity,
                      light.color.z * light.intensity⟩ }) := by
  induction lights generalizing lightCount with
  | nil =>
      rw [show DrawPointLights [] lightCount = [] from
        List.filterMap_eq_nil.mpr (fun i _ => rfl)]
      simp
  | cons L rest ih =>
      cases lightCount with
      | zero => rfl
      | succ n =>
          rw [DrawPointLights_cons, ih n]
          by_cases hP : L.type = LightType.Point
          · simp [hP, world_product_eq]
          · simp [hP]

/-- Every operation of the per-entity segment has phase 1. -/
theorem opPhase_entitySeg (l : List (ℕ × ℕ)) (c : FrameConstants) :
    ∀ op ∈ l.flatMap (fun e =>
        [FrameOp.setPerFrameData e.2 c, FrameOp.entityDraw e.1]),
      opPhase op = 1 := by
  intro op hop
  rw [List.mem_flatMap] at hop
  rcases hop with ⟨e, _, hmem⟩
  simp only [List.mem_cons, List.not_mem_nil, or_false] at hmem
  rcases hmem with rfl | rfl <;> rfl

/-- Every operation of the light-marker segment has phase 2. -/
theorem opPhase_lightSeg (ds : List PointLightDraw) :
    ∀ op ∈ ds.map FrameOp.lightMarkerDraw, opPhase op = 2 := by
  intro op hop
  rcases List.mem_map.mp hop with ⟨d, _, rfl⟩
  rfl

/-- Every operation of the overlay segment has phase 4. -/
theorem opPhase_uiSeg (sbBlend sbDepth : ℕ) :
    ∀ op ∈ DrawUIOps sbBlend sbDepth, opPhase op = 4 := by
  intro op hop
  simp only [DrawUIOps, List.mem_append, List.mem_map, List.mem_cons,
    List.not_mem_nil, or_false] at hop
  rcases hop with (⟨i, _, rfl⟩ | rfl | rfl) | rfl | rfl <;> rfl

/-- A list of operations of one common phase is phase-monotone. -/
theorem pairwise_phase_of_const {l : List FrameOp} {c : ℕ}
    (h : ∀ op ∈ l, opPhase op = c) :
    List.Pairwise (fun a b => opPhase a ≤ opPhase b) l := by
  induction l with
  | nil => exact List.Pairwise.nil
  | cons a t ih =>
      refine List.Pairwise.cons (fun b hb => ?_)
        (ih (fun op hop => h op (List.mem_cons_of_mem a hop)))
      rw [h a (List.mem_cons_self a t), h b (List.mem_cons_of_mem a hb)]

/-- Gluing lemma: two phase-monotone segments separated by a phase bound
concatenate to a phase-monotone list. -/
theorem pairwise_phase_append {l1 l2 : List FrameOp} (c : ℕ)
    (h1 : List.Pairwise (fun a b => opPhase a ≤ opPhase b) l1)
    (h2 : List.Pairwise (fun a b => opPhase a ≤ opPhase b) l2)
    (hub : ∀ op ∈ l1, opPhase op ≤ c) (hlb : ∀ op ∈ l2, c ≤ opPhase op) :
    List.Pairwise (fun a b => opPhase a ≤ opPhase b) (l1 ++ l2) := by
  rw [List.pairwise_append]
  exact ⟨h1, h2, fun a ha b hb => le_trans (hub a ha) (hlb b hb)⟩

/-- An operation of positive phase is not a clear. -/
theorem isClearOp_eq_false {op : FrameOp} (h : 1 ≤ opPhase op) :
    isClearOp op = false := by
  cases op <;> simp [opPhase, isClearOp] at h ⊢

/-- C5: in every frame the draw cycle runs in the fixed order: clear of
the color target to opaque black and of the depth-stencil target to depth
1 first, then the per-entity draws, then the light-marker draws, then the
sky draw, then the overlay draw, then the debug-UI draw and the present;
the first two operations are the clears, every later pass has a larger or
equal phase, and no clear appears after the first two operations, so no
draw ever precedes the clear. -/
theorem draw_order_spec (entities : List ℕ) (lights : List Light) (lightCount : ℕ)
    (cameraPosition : Vec3) (specMips sbBlend sbDepth : ℕ) :
    (DrawOps entities lights lightCount cameraPosition specMips sbBlend sbDepth).take 2 =
      [FrameOp.clearRenderTarget 0 0 0 1, FrameOp.clearDepthStencil 1 0] ∧
    List.Pairwise (fun a b => opPhase a ≤ opPhase b)
      (DrawOps entities lights lightCount cameraPosition specMips sbBlend sbDepth) ∧
    (((DrawOps entities lights lightCount cameraPosition specMips sbBlend
        sbDepth).take 2).all fun op => !(isDrawOp op)) = true ∧
    (((DrawOps entities lights lightCount cameraPosition specMips sbBlend
        sbDepth).drop 2).all fun op => !(isClearOp op)) = true := by
  have htail_p : List.Pairwise (fun a b => opPhase a ≤ opPhase b)
      [FrameOp.debugUIDraw, FrameOp.present, FrameOp.bindRenderTargets] := by decide
  have htail_lb : ∀ op ∈ [FrameOp.debugUIDraw, FrameOp.present,
      FrameOp.bindRenderTargets], 5 ≤ opPhase op := by decide
  have hui := opPhase_uiSeg sbBlend sbDepth
  have hui_tail : List.Pairwise (fun a b => opPhase a ≤ opPhase b)
      (DrawUIOps sbBlend sbDepth ++
        [FrameOp.debugUIDraw, FrameOp.present, FrameOp.bindRenderTargets]) :=
    pairwise_phase_append 5 (pairwise_phase_of_const hui) htail_p
      (fun op hop => by rw [hui op hop]; norm_num) htail_lb
  have hui_tail_lb : ∀ op ∈ DrawUIOps sbBlend sbDepth ++
      [FrameOp.debugUIDraw, FrameOp.present, FrameOp.bindRenderTargets],
      4 ≤ opPhase op := by
    intro op hop
    rcases List.mem_append.mp hop with h | h
    · rw [hui op h]
    · exact le_trans (by norm_num) (htail_lb op h)
  have hsky_rest : List.Pairwise (fun a b => opPhase a ≤ opPhase b)
      ([FrameOp.skyDraw] ++ (DrawUIOps sbBlend sbDepth ++
        [FrameOp.debugUIDraw, FrameOp.present, FrameOp.bindRenderTargets])) :=
    pairwise_phase_append 4 (List.pairwise_singleton _ _) hui_tail
      (fun op hop => by rcases List.mem_singleton.mp hop with rfl; norm_num [opPhase])
      hui_tail_lb
  have hsky_rest_lb : ∀ op ∈ [FrameOp.skyDraw] ++ (DrawUIOps sbBlend sbDepth ++
      [FrameOp.debugUIDraw, FrameOp.present, FrameOp.bindRenderTargets]),
      3 ≤ opPhase op := by
    intro op hop
    rcases List.mem_append.mp hop with h | h
    · rcases List.mem_singleton.mp h with rfl; norm_num [opPhase]
    · exact le_trans (by norm_num) (hui_tail_lb op h)
  have hlm := opPhase_lightSeg (DrawPointLights lights lightCount)
  have hlm_rest : List.Pairwise (fun a b => opPhase a ≤ opPhase b)
      ((DrawPointLights lights lightCount).map FrameOp.lightMarkerDraw ++
        ([FrameOp.skyDraw] ++ (DrawUIOps sbBlend sbDepth ++
          [FrameOp.debugUIDraw, FrameOp.present, FrameOp.bindRenderTargets]))) :=
    pairwise_phase_append 3 (pairwise_phase_of_const hlm) hsky_rest
      (fun op hop => by rw [hlm op hop]; norm_num) hsky_rest_lb
  have hlm_rest_lb : ∀ op ∈ (DrawPointLights lights lightCount).map
      FrameOp.lightMarkerDraw ++ ([FrameOp.skyDraw] ++ (DrawUIOps sbBlend sbDepth ++
        [FrameOp.debugUIDraw, FrameOp.present, FrameOp.bindRenderTargets])),
      2 ≤ opPhase op := by
    intro op hop
    rcases List.mem_append.mp hop with h | h
    · rw [hlm op h]
    · exact le_trans (by norm_num) (hsky_rest_lb op h)
  have hent := opPhase_entitySeg entities.enum
    { lightData := lights.take lightCount
      lightCount := lightCount
      cameraPosition := cameraPosition
      specIBLTotalMipLevels := specMips }
  have hent_rest : List.Pairwise (fun a b => opPhase a ≤ opPhase b)
      (entities.enum.flatMap (fun e =>
        [FrameOp.setPerFrameData e.2
          { lightData := lights.take lightCount
            lightCount := lightCount
            cameraPosition := cameraPosition
            specIBLTotalMipLevels := specMips },
         FrameOp.entityDraw e.1]) ++
        ((DrawPointLights lights lightCount).map FrameOp.lightMarkerDraw ++
          ([FrameOp.skyDraw] ++ (DrawUIOps sbBlend sbDepth ++
            [FrameOp.debugUIDraw, FrameOp.present, FrameOp.bindRenderTargets])))) :=
    pairwise_phase_append 2 (pairwise_phase_of_const hent) hlm_rest
      (fun op hop => by rw [hent op hop]; norm_num) hlm_rest_lb
  have hent_rest_lb : ∀ op ∈ entities.enum.flatMap (fun e =>
      [FrameOp.setPerFrameData e.2
        { lightData := lights.take lightCount
          lightCount := lightCount
          cameraPosition := cameraPosition
          specIBLTotalMipLevels := specMips },
       FrameOp.entityDraw e.1]) ++
      ((DrawPointLights lights lightCount).map FrameOp.lightMarkerDraw ++
        ([FrameOp.skyDraw] ++ (DrawUIOps sbBlend sbDepth ++
          [FrameOp.debugUIDraw, FrameOp.present, FrameOp.bindRenderTargets]))),
      1 ≤ opPhase op := by
    intro op hop
    rcases List.mem_append.mp hop with h | h
    · rw [hent op h]
    · exact le_trans (by norm_num) (hlm_rest_lb op h)
  refine ⟨rfl, ?_, rfl, ?_⟩
  · unfold DrawOps
    simp only [List.append_assoc]
    refine pairwise_phase_append 1 ?_ hent_rest ?_ hent_rest_lb
    · decide
    · decide
  · unfold DrawOps
    simp only [List.cons_append, List.nil_append, List.drop_succ_cons, List.drop_zero]
    rw [List.all_eq_true]
    intro op hop
    have h1 : 1 ≤ opPhase op := by
      apply hent_rest_lb op
      simpa [List.append_assoc] using hop
    rw [isClearOp_eq_false h1]
    rfl

/-- A segment without per-frame pushes contributes nothing to the
projection. -/
theorem filterMap_perFrame_eq_nil {l : List FrameOp}
    (h : ∀ op ∈ l, perFrameDataOf op = none) :
    l.filterMap perFrameDataOf = [] :=
  List.filterMap_eq_nil.mpr h

/-- The per-entity segment projects to one push per entry, carrying the
pixel-shader handle of the entry and the shared constants. -/
theorem filterMap_perFrame_entitySeg (l : List (ℕ × ℕ)) (c : FrameConstants) :
    (l.flatMap (fun e =>
      [FrameOp.setPerFrameData e.2 c, FrameOp.entityDraw e.1])).filterMap
        perFrameDataOf = l.map (fun e => (e.2, c)) := by
  induction l with
  | nil => rfl
  | cons a t ih =>
      simp only [List.flatMap_cons, List.filterMap_append, ih, List.filterMap_cons,
        perFrameDataOf, List.map_cons]
      rfl

/-- C7: in each per-entity iteration of the draw loop, the frame-scope
constants pushed into that entity material pixel-shader stage are exactly
the light array bounded by the capacity (lightCount records), the light
count, the camera world position and the specular mip-level count, and
this push happens once per entity (inside the loop), not once per frame:
the pushes of the frame are in bijection with the entity list, in order. -/
theorem draw_perFrame_constants (entities : List ℕ) (lights : List Light)
    (lightCount : ℕ) (cameraPosition : Vec3) (specMips sbBlend sbDepth : ℕ) :
    (DrawOps entities lights lightCount cameraPosition specMips sbBlend
        sbDepth).filterMap perFrameDataOf =
      entities.map (fun ps => (ps,
        ({ lightData := lights.take lightCount
           lightCount := lightCount
           cameraPosition := cameraPosition
           specIBLTotalMipLevels := specMips } : FrameConstants))) := by
  have hclr : List.filterMap perFrameDataOf
      [FrameOp.clearRenderTarget 0 0 0 1, FrameOp.clearDepthStencil 1 0] = [] := rfl
  have hlm : ((DrawPointLights lights lightCount).map
      FrameOp.lightMarkerDraw).filterMap perFrameDataOf = [] :=
    filterMap_perFrame_eq_nil (by
      intro op hop
      rcases List.mem_map.mp hop with ⟨d, _, rfl⟩
      rfl)
  have hsky : List.filterMap perFrameDataOf [FrameOp.skyDraw] = [] := rfl
  have hui : (DrawUIOps sbBlend sbDepth).filterMap perFrameDataOf = [] :=
    filterMap_perFrame_eq_nil (by
      intro op hop
      simp only [DrawUIOps, List.mem_append, List.mem_map, List.mem_cons,
        List.not_mem_nil, or_false] at hop
      rcases hop with (⟨i, _, rfl⟩ | rfl | rfl) | rfl | rfl <;> rfl)
  have htail : List.filterMap perFrameDataOf
      [FrameOp.debugUIDraw, FrameOp.present, FrameOp.bindRenderTargets] = [] := rfl
  have henum : entities.enum.map (fun e => ((e.2 : ℕ),
      ({ lightData := lights.take lightCount
         lightCount := lightCount
         cameraPosition := cameraPosition
         specIBLTotalMipLevels := specMips } : FrameConstants))) =
      entities.map (fun ps => (ps,
        ({ lightData := lights.take lightCount
           lightCount := lightCount
           cameraPosition := cameraPosition
           specIBLTotalMipLevels := specMips } : FrameConstants))) := by
    rw [show (fun (e : ℕ × ℕ) => ((e.2 : ℕ),
        ({ lightData := lights.take lightCount
           lightCount := lightCount
           cameraPosition := cameraPosition
           specIBLTotalMipLevels := specMips } : FrameConstants))) =
      ((fun ps => (ps,
        ({ lightData := lights.take lightCount
           lightCount := lightCount
           cameraPosition := cameraPosition
           specIBLTotalMipLevels := specMips } : FrameConstants))) ∘ Prod.snd) from rfl]
    rw [← List.map_map, List.enum_map_snd]
  unfold DrawOps
  simp only [List.filterMap_append, hclr, hlm, hsky, hui, htail,
    filterMap_perFrame_entitySeg, List.nil_append, List.append_nil]
  exact henum

end Aggp
